import Mathlib

/-!
Shallow embedding of the telemetry engine of `src/telemetry.ts` together
with the event data model of the types module.

Modelling conventions:
* JavaScript wall-clock times (`Date.now()`) are `Nat` milliseconds passed
  explicitly to each operation at the program points where the source reads
  the clock.
* The closure state of `createObservability` (`eventQueue`, `flushTimer`,
  `isInitialized`, the two bound listeners, `consecutiveFailures`,
  `backoffUntil`, `lastErrorLogged`) is the structure `EngineState`.
  A pending `setTimeout` is `flushTimer = some t` where `t` is the absolute
  time at which the timer fires (`Date.now()` at arming plus the delay).
* `scheduleFlush` and `collect` return, besides the new state, a `Bool`
  that is `true` exactly when a run of `flush` was deferred for execution
  (via `requestIdleCallback` or the zero-delay `setTimeout` fallback).
* The asynchronous `flush` is split at its single suspension point
  (`await fetch`): `flushStart` is everything before the request is issued
  (the empty-queue check, the circuit-breaker check, the optimistic queue
  swap) and `flushResolve` is the continuation running when the request
  settles, applied to the state current at that later moment (whose queue
  holds the events that arrived during the attempt) with the detached
  batch, the outcome (`ok = false` covers both a network error and a
  non-ok response status, which the source turns into a thrown error),
  and the time at which it settles.
* JavaScript property bags are association lists `List (String × Value)`
  where a later binding of a key overrides an earlier one, exactly as a
  later entry of an object literal or spread does; `getProp` is key lookup
  under that convention, and a key bound to `Value.vUndefined` models a
  property that is present with value `undefined`.
-/

namespace Telemetry

/-- The `type` field of a telemetry event. -/
inductive TelemetryType where
  | metric
  | event
  | error
  | trace
deriving DecidableEq, Repr

/-- Qualitative rating attached to metric events. -/
inductive MetricRating where
  | good
  | needsImprovement
  | poor
deriving DecidableEq, Repr

/-- JavaScript values appearing in property bags and as thrown values.
`vErr msg stack` is a structured `Error` object (so `instanceof Error`
holds exactly of it); `vUndefined` is `undefined`. -/
inductive Value where
  | vStr : String → Value
  | vNum : Int → Value
  | vBool : Bool → Value
  | vUndefined : Value
  | vErr : String → Option String → Value
deriving DecidableEq, Repr

/-- Key lookup in a property bag where a later binding overrides an
earlier one, as in a JavaScript object literal built with spreads. -/
def getProp : List (String × Value) → String → Option Value
  | [], _ => none
  | (k, v) :: rest, key =>
    match getProp rest key with
    | some v2 => some v2
    | none => if k = key then some v else none

/-- `String(x)` string coercion for the values we model. -/
def jsToString : Value → String
  | .vStr s => s
  | .vNum n => toString n
  | .vBool b => toString b
  | .vUndefined => "undefined"
  | .vErr m _ => "Error: " ++ m

/-- `error instanceof Error ? error.message : String(error)`. -/
def errorMessage : Value → String
  | .vErr m _ => m
  | v => jsToString v

/-- `error instanceof Error ? error.stack : undefined` as a `Value`
(the `stack` of an `Error` may itself be `undefined`). -/
def errorStack : Value → Value
  | .vErr _ (some st) => .vStr st
  | _ => .vUndefined

/-- A full telemetry event as defined by the `TelemetryEvent` interface. -/
structure TelemetryEvent where
  type : TelemetryType
  name : String
  value : Option Int
  rating : Option MetricRating
  properties : Option (List (String × Value))
  timestamp : Nat
  sessionId : String
  page : String
deriving DecidableEq, Repr

/-- The argument of `collect`: a `TelemetryEvent` minus the
`timestamp`, `sessionId` and `page` fields that `collect` stamps. -/
structure PartialEvent where
  type : TelemetryType
  name : String
  value : Option Int
  rating : Option MetricRating
  properties : Option (List (String × Value))
deriving DecidableEq, Repr

/-- The `ObservabilityConfig` fields the engine core reads (the optional
provider overrides are modelled by passing session id and page to each
operation explicitly). -/
structure ObservabilityConfig where
  debug : Bool
  batchSize : Nat
  flushInterval : Nat
  telemetryEndpoint : String
  useBeacon : Bool
  sessionKey : String
deriving DecidableEq, Repr

/-- `DEFAULT_CONFIG` of the source. -/
def DEFAULT_CONFIG : ObservabilityConfig :=
  { debug := false
    batchSize := 10
    flushInterval := 5000
    telemetryEndpoint := "/api/telemetry"
    useBeacon := true
    sessionKey := "pleme_session_id" }

/-- `MAX_BACKOFF_MS = 5 * 60 * 1000`. -/
def MAX_BACKOFF_MS : Nat := 5 * 60 * 1000

/-- `ERROR_LOG_INTERVAL_MS = 60_000`. -/
def ERROR_LOG_INTERVAL_MS : Nat := 60000

/-- The mutable closure state of one `createObservability` instance. -/
structure EngineState where
  eventQueue : List TelemetryEvent
  flushTimer : Option Nat
  isInitialized : Bool
  hasVisibilityListener : Bool
  hasUnloadListener : Bool
  consecutiveFailures : Nat
  backoffUntil : Nat
  lastErrorLogged : Nat
deriving DecidableEq, Repr

/-- State right after `createObservability` ran `init()` in a browser
context: fresh queue and breaker, listeners registered when `useBeacon`. -/
def initialState (config : ObservabilityConfig) : EngineState :=
  { eventQueue := []
    flushTimer := none
    isInitialized := true
    hasVisibilityListener := config.useBeacon
    hasUnloadListener := config.useBeacon
    consecutiveFailures := 0
    backoffUntil := 0
    lastErrorLogged := 0 }

/-- `getBackoffDelay`: `Math.min(5000 * Math.pow(2, consecutiveFailures - 1),
MAX_BACKOFF_MS)`, read on the current failure count. -/
def getBackoffDelay (consecutiveFailures : Nat) : Nat :=
  min (5000 * 2 ^ (consecutiveFailures - 1)) MAX_BACKOFF_MS

/-- The full event `collect` builds: the partial event spread together
with `timestamp: Date.now()`, `sessionId: getSession()`, `page: getPage()`. -/
def mkFullEvent (p : PartialEvent) (now : Nat) (sessionId page : String) :
    TelemetryEvent :=
  { type := p.type
    name := p.name
    value := p.value
    rating := p.rating
    properties := p.properties
    timestamp := now
    sessionId := sessionId
    page := page }

/-- `scheduleFlush`: clear a pending timer, return without deferring when
the queue is empty, otherwise defer a run of `flush` (the returned `Bool`
is `true` exactly when a flush run was deferred). -/
def scheduleFlush (s : EngineState) : EngineState × Bool :=
  let s1 := { s with flushTimer := none }
  if s1.eventQueue.length = 0 then (s1, false) else (s1, true)

/-- `collect`: append the stamped event, then either schedule a flush when
the queue reached `batchSize`, or arm the interval timer when none is
pending. -/
def collect (config : ObservabilityConfig) (s : EngineState) (now : Nat)
    (sessionId page : String) (p : PartialEvent) : EngineState × Bool :=
  let s1 := { s with
    eventQueue := s.eventQueue ++ [mkFullEvent p now sessionId page] }
  if config.batchSize ≤ s1.eventQueue.length then
    scheduleFlush s1
  else if s1.flushTimer.isNone then
    ({ s1 with flushTimer := some (now + config.flushInterval) }, false)
  else
    (s1, false)

/-- Result of the synchronous prefix of `flush`: either an early return
(`noSend`, empty queue or open breaker) or the start of a delivery attempt
(`send`, with the queue optimistically swapped out and the detached batch
handed to `fetch`). -/
inductive FlushStart where
  | noSend : EngineState → FlushStart
  | send : EngineState → List TelemetryEvent → FlushStart
deriving DecidableEq, Repr

/-- The state component of a `FlushStart`. -/
def FlushStart.state : FlushStart → EngineState
  | .noSend s => s
  | .send s _ => s

/-- The batch handed to the transport, if any. -/
def FlushStart.sentBatch : FlushStart → Option (List TelemetryEvent)
  | .noSend _ => none
  | .send _ b => some b

/-- `flush` up to the `fetch`: return when the queue is empty; inside a
backoff window arm a timer for the remaining duration only when none is
pending and return; otherwise swap the queue for an empty one and issue
the request with the swapped-out batch. `t1` is `Date.now()` at entry. -/
def flushStart (s : EngineState) (t1 : Nat) : FlushStart :=
  if s.eventQueue.length = 0 then
    .noSend s
  else if t1 < s.backoffUntil then
    if s.flushTimer.isNone then
      .noSend { s with flushTimer := some s.backoffUntil }
    else
      .noSend s
  else
    .send { s with eventQueue := [] } s.eventQueue

/-- A rate-limited failure warning: the source logs the attempt number
(`consecutiveFailures` after the increment) and the computed retry delay. -/
structure Warning where
  attempt : Nat
  delayMs : Nat
deriving DecidableEq, Repr

/-- The continuation of `flush` after the `fetch` settles, applied to the
then-current state `s` (its queue holds the events collected during the
attempt), the detached batch, the outcome, and `t2 = Date.now()` at
settlement. On success the breaker resets; on failure the failure count
increments, the batch is re-queued into the space left under 100, backoff
is armed, a warning is emitted unless one was emitted in the last 60 s,
and a retry timer is armed when none is pending. -/
def flushResolve (s : EngineState) (batch : List TelemetryEvent)
    (ok : Bool) (t2 : Nat) : EngineState × Option Warning :=
  if ok then
    ({ s with consecutiveFailures := 0, backoffUntil := 0 }, none)
  else
    let s1 := { s with consecutiveFailures := s.consecutiveFailures + 1 }
    let spaceLeft : Int := 100 - s1.eventQueue.length
    let s2 :=
      if 0 < spaceLeft then
        { s1 with eventQueue := s1.eventQueue ++ batch.take spaceLeft.toNat }
      else s1
    let delay := getBackoffDelay s2.consecutiveFailures
    let s3 := { s2 with backoffUntil := t2 + delay }
    let logged :=
      if (ERROR_LOG_INTERVAL_MS : Int) ≤ (t2 : Int) - (s3.lastErrorLogged : Int) then
        ({ s3 with lastErrorLogged := t2 },
          some { attempt := s3.consecutiveFailures, delayMs := delay })
      else
        (s3, none)
    let s4 := logged.1
    let s5 :=
      if s4.flushTimer.isNone then { s4 with flushTimer := some (t2 + delay) }
      else s4
    (s5, logged.2)

/-- `flushWithBeacon`: return untouched when the queue is empty or beacon
use is disabled; otherwise hand the whole queue to `navigator.sendBeacon`
(returned as `some batch`; the call observes no outcome) and leave the
queue empty. -/
def flushWithBeacon (config : ObservabilityConfig) (s : EngineState) :
    EngineState × Option (List TelemetryEvent) :=
  if s.eventQueue.length = 0 ∨ config.useBeacon = false then
    (s, none)
  else
    ({ s with eventQueue := [] }, some s.eventQueue)

/-- `cleanup`: remove the page-lifecycle listeners, cancel a pending
timer, mark the instance uninitialized. (The session-cache reset acts on
the external session module, not on this state.) -/
def cleanup (s : EngineState) : EngineState :=
  { s with
    hasVisibilityListener := false
    hasUnloadListener := false
    flushTimer := none
    isInitialized := false }

/-- `trackEvent(name, properties?)`. -/
def trackEvent (config : ObservabilityConfig) (s : EngineState) (now : Nat)
    (sessionId page : String) (name : String)
    (props : Option (List (String × Value))) : EngineState × Bool :=
  collect config s now sessionId page
    { type := .event, name := name, value := none, rating := none,
      properties := props }

/-- `trackMetric(name, value, rating?, properties?)`. -/
def trackMetric (config : ObservabilityConfig) (s : EngineState) (now : Nat)
    (sessionId page : String) (name : String) (value : Int)
    (rating : Option MetricRating)
    (props : Option (List (String × Value))) : EngineState × Bool :=
  collect config s now sessionId page
    { type := .metric, name := name, value := some value, rating := rating,
      properties := props }

/-- The property bag `trackError` builds:
`{ ...properties, error, message: ..., stack: ... }`. A missing caller
bag spreads as nothing. -/
def trackErrorProps (error : Value)
    (props : List (String × Value)) : List (String × Value) :=
  props ++
    [("error", error),
     ("message", .vStr (errorMessage error)),
     ("stack", errorStack error)]

/-- `trackError(name, error, properties?)`. -/
def trackError (config : ObservabilityConfig) (s : EngineState) (now : Nat)
    (sessionId page : String) (name : String) (error : Value)
    (props : Option (List (String × Value))) : EngineState × Bool :=
  collect config s now sessionId page
    { type := .error, name := name, value := none, rating := none,
      properties := some (trackErrorProps error (props.getD [])) }

/-- `trackTrace(name, properties?)`. -/
def trackTrace (config : ObservabilityConfig) (s : EngineState) (now : Nat)
    (sessionId page : String) (name : String)
    (props : Option (List (String × Value))) : EngineState × Bool :=
  collect config s now sessionId page
    { type := .trace, name := name, value := none, rating := none,
      properties := props }

/-- `trackPageView(path, properties?)` forwards to
`trackEvent('page_view', { path, ...properties })`. -/
def trackPageView (config : ObservabilityConfig) (s : EngineState) (now : Nat)
    (sessionId page : String) (path : String)
    (props : Option (List (String × Value))) : EngineState × Bool :=
  trackEvent config s now sessionId page "page_view"
    (some (("path", .vStr path) :: props.getD []))

/-- The requeue rule as the specification document words it: on failure
the attempted batch is pushed back onto the front of the now-current
queue, capped at 100 total events, with oldest-first truncation of the
failed batch when over the cap. Stated here only to be compared with the
behaviour of `flushResolve`. -/
def requeueSpec (current batch : List TelemetryEvent) :
    List TelemetryEvent :=
  let keep := 100 - current.length
  batch.drop (batch.length - keep) ++ current

/-- Iterate failed deliveries at the given settlement times, recording
each emitted warning with its time. -/
def runFlushFailures (s : EngineState) : List Nat → List (Nat × Warning)
  | [] => []
  | t :: ts =>
    let r := flushResolve s [] false t
    match r.2 with
    | some w => (t, w) :: runFlushFailures r.1 ts
    | none => runFlushFailures r.1 ts

end Telemetry

/-! ### Concrete instances used by counterexamples and witnesses -/

namespace Telemetry

/-- A state with two prior failures, used to instantiate breaker lemmas. -/
def c3_state : EngineState :=
  { eventQueue := []
    flushTimer := none
    isInitialized := true
    hasVisibilityListener := true
    hasUnloadListener := true
    consecutiveFailures := 2
    backoffUntil := 0
    lastErrorLogged := 0 }

/-- A minimal concrete telemetry event. -/
def c5_event : TelemetryEvent :=
  { type := .event, name := "e", value := none, rating := none,
    properties := none, timestamp := 0, sessionId := "s", page := "/" }

/-- A state inside a backoff window (until 5000) in which an interval
timer armed earlier is still pending (firing at 6000). Reachable:
a failure at time 0 with one queued event arms backoff until 5000; an
explicit `flush()` call at time 1000 clears the retry timer and defers a
flush run; before that run executes, a below-threshold `collect` arms the
interval timer (1000 + 5000 = 6000); the deferred run then enters `flush`
inside the backoff window with `flushTimer` non-null. -/
def c5_state : EngineState :=
  { eventQueue := [c5_event]
    flushTimer := some 6000
    isInitialized := true
    hasVisibilityListener := true
    hasUnloadListener := true
    consecutiveFailures := 1
    backoffUntil := 5000
    lastErrorLogged := 0 }

/-- An event whose only varying field is the name. -/
def c1_event (nm : String) : TelemetryEvent :=
  { type := .event, name := nm, value := none, rating := none,
    properties := none, timestamp := 0, sessionId := "s", page := "/" }

/-- 99 events that arrived while a failed delivery attempt was in flight. -/
def c1_current : List TelemetryEvent := List.replicate 99 (c1_event "old")

/-- The two-event batch of the failed delivery attempt. -/
def c1_batch : List TelemetryEvent := [c1_event "a", c1_event "b"]

/-- The live state at the moment the failed attempt settles. -/
def c1_state : EngineState :=
  { eventQueue := c1_current
    flushTimer := none
    isInitialized := true
    hasVisibilityListener := true
    hasUnloadListener := true
    consecutiveFailures := 0
    backoffUntil := 0
    lastErrorLogged := 0 }

/-- A configuration with `batchSize = 1`, so a single tracked event
reaches the size threshold. -/
def c2_config : ObservabilityConfig :=
  { debug := false
    batchSize := 1
    flushInterval := 5000
    telemetryEndpoint := "/api/telemetry"
    useBeacon := true
    sessionKey := "k" }

/-- The partial event of a track call issued after `cleanup()`. -/
def c2_partial : PartialEvent :=
  { type := .event, name := "after_cleanup", value := none, rating := none,
    properties := none }

/-- A mid-flight state with a non-empty queue, pending timer and open
breaker, to exercise the teardown flush. -/
def c8_state : EngineState :=
  { eventQueue := [c5_event]
    flushTimer := some 400
    isInitialized := true
    hasVisibilityListener := true
    hasUnloadListener := true
    consecutiveFailures := 3
    backoffUntil := 77
    lastErrorLogged := 5 }

/-! ### Helper lemmas -/

/-- On success the breaker fields reset and nothing else changes. -/
lemma flushResolve_ok (s : EngineState) (b : List TelemetryEvent) (t : Nat) :
    flushResolve s b true t
      = ({ s with consecutiveFailures := 0, backoffUntil := 0 }, none) := by
  simp [flushResolve]

/-- On failure the queue becomes the live queue followed by the failed
batch truncated to the space left under 100. -/
lemma flushResolve_fail_queue (s : EngineState) (b : List TelemetryEvent)
    (t : Nat) :
    (flushResolve s b false t).1.eventQueue
      = s.eventQueue ++ b.take (100 - s.eventQueue.length) := by
  simp only [flushResolve]
  split_ifs <;> simp_all

/-- On failure the failure count increments. -/
lemma flushResolve_fail_failures (s : EngineState) (b : List TelemetryEvent)
    (t : Nat) :
    (flushResolve s b false t).1.consecutiveFailures
      = s.consecutiveFailures + 1 := by
  simp only [flushResolve]
  split_ifs <;> simp_all

/-- On failure `backoffUntil` becomes settlement time plus the delay for
the incremented failure count. -/
lemma flushResolve_fail_backoffUntil (s : EngineState)
    (b : List TelemetryEvent) (t : Nat) :
    (flushResolve s b false t).1.backoffUntil
      = t + getBackoffDelay (s.consecutiveFailures + 1) := by
  simp only [flushResolve]
  split_ifs <;> simp_all

/-- On failure a warning carrying the attempt number and the computed
delay is emitted exactly when 60 s have passed since the last one. -/
lemma flushResolve_fail_warning (s : EngineState) (b : List TelemetryEvent)
    (t : Nat) :
    (flushResolve s b false t).2
      = if (ERROR_LOG_INTERVAL_MS : Int)
            ≤ (t : Int) - (s.lastErrorLogged : Int) then
          some { attempt := s.consecutiveFailures + 1,
                 delayMs := getBackoffDelay (s.consecutiveFailures + 1) }
        else none := by
  simp only [flushResolve]
  split_ifs <;> simp_all

/-- `lastErrorLogged` advances to the settlement time exactly when a
warning was emitted. -/
lemma flushResolve_fail_lastLogged (s : EngineState) (b : List TelemetryEvent)
    (t : Nat) :
    (flushResolve s b false t).1.lastErrorLogged
      = if (ERROR_LOG_INTERVAL_MS : Int)
            ≤ (t : Int) - (s.lastErrorLogged : Int) then t
        else s.lastErrorLogged := by
  simp only [flushResolve]
  split_ifs <;> simp_all

/-- `collect` appends exactly the stamped event, in every branch of its
scheduling logic. -/
lemma collect_queue (config : ObservabilityConfig) (s : EngineState)
    (now : Nat) (sessionId page : String) (p : PartialEvent) :
    (collect config s now sessionId page p).1.eventQueue
      = s.eventQueue ++ [mkFullEvent p now sessionId page] := by
  simp only [collect, scheduleFlush]
  split_ifs <;> simp_all

/-- Lookup in a concatenated property bag: bindings of the right part
override bindings of the left part. -/
lemma getProp_append (xs ys : List (String × Value)) (k : String) :
    getProp (xs ++ ys) k = (getProp ys k).or (getProp xs k) := by
  induction xs with
  | nil => cases h : getProp ys k <;> simp [getProp, h]
  | cons hd tl ih =>
    cases hys : getProp ys k <;> cases htl : getProp tl k <;>
      simp_all [getProp, Option.or]

/-- Iterated failed deliveries: consecutive emitted warnings are at least
60 s apart, and the first emission is at least 60 s after the recorded
last-log time. -/
lemma runFlushFailures_chain (ts : List Nat) (s : EngineState) :
    List.Chain' (fun a b => a.1 + ERROR_LOG_INTERVAL_MS ≤ b.1)
      (runFlushFailures s ts) ∧
    (∀ x ∈ (runFlushFailures s ts).head?,
      s.lastErrorLogged + ERROR_LOG_INTERVAL_MS ≤ x.1) := by
  induction ts generalizing s with
  | nil => simp [runFlushFailures]
  | cons t ts ih =>
    have hw := flushResolve_fail_warning s [] t
    have hl := flushResolve_fail_lastLogged s [] t
    by_cases h : (ERROR_LOG_INTERVAL_MS : Int)
        ≤ (t : Int) - (s.lastErrorLogged : Int)
    · rw [if_pos h] at hw
      rw [if_pos h] at hl
      have hrun : runFlushFailures s (t :: ts)
          = (t, { attempt := s.consecutiveFailures + 1,
                  delayMs := getBackoffDelay (s.consecutiveFailures + 1) })
            :: runFlushFailures (flushResolve s [] false t).1 ts := by
        simp only [runFlushFailures]
        rw [hw]
      obtain ⟨ihc, ihh⟩ := ih (flushResolve s [] false t).1
      rw [hrun]
      constructor
      · rw [List.chain'_cons']
        refine ⟨?_, ihc⟩
        intro y hy
        have := ihh y hy
        rw [hl] at this
        exact this
      · intro x hx
        simp only [List.head?_cons, Option.mem_def, Option.some.injEq] at hx
        subst hx
        omega
    · rw [if_neg h] at hw
      rw [if_neg h] at hl
      have hrun : runFlushFailures s (t :: ts)
          = runFlushFailures (flushResolve s [] false t).1 ts := by
        simp only [runFlushFailures]
        rw [hw]
      obtain ⟨ihc, ihh⟩ := ih (flushResolve s [] false t).1
      rw [hrun]
      refine ⟨ihc, ?_⟩
      intro x hx
      have := ihh x hx
      rw [hl] at this
      exact this

end Telemetry

/-! ### Claim theorems -/

namespace Telemetry

/-- C1 (counterexample): at a concrete failed flush — 99 events arrived
during the attempt, failed batch `[a, b]` — the code appends the batch to
the back of the live queue and keeps its oldest element `a` (dropping the
newest, `b`), whereas the claimed rule (batch pushed onto the front,
oldest-of-batch dropped first, `requeueSpec`) would put `b` in front and
drop `a`; the two results differ. -/
theorem requeue_front_oldest_counterexample :
    (flushResolve c1_state c1_batch false 0).1.eventQueue
      = c1_current ++ [c1_event "a"] ∧
    requeueSpec c1_current c1_batch = c1_event "b" :: c1_current ∧
    c1_current ++ [c1_event "a"] ≠ c1_event "b" :: c1_current := by
  refine ⟨by decide, by decide, by decide⟩

/-- C1 (amended): for every standard flush that fails, the attempted
batch — and not events that arrived during the attempt — is appended to
the back of the now-current queue, truncated to the space left under 100
total events, the newest events of the failed batch being dropped first;
the resulting queue never exceeds `max` of the live-queue length and
100. -/
theorem requeue_back_newest_dropped (s : EngineState)
    (batch : List TelemetryEvent) (t2 : Nat) :
    (flushResolve s batch false t2).1.eventQueue
      = s.eventQueue ++ batch.take (100 - s.eventQueue.length) ∧
    (flushResolve s batch false t2).1.eventQueue.length
      ≤ max s.eventQueue.length 100 := by
  refine ⟨flushResolve_fail_queue s batch t2, ?_⟩
  rw [flushResolve_fail_queue]
  simp only [List.length_append, List.length_take]
  omega

/-- C2 (counterexample): on a disposed instance (`cleanup` applied) with
`batchSize = 1`, a subsequent `trackEvent` both appends its event and
schedules a flush, and the scheduled flush performs a delivery attempt
carrying that event — contradicting "no flush is ever performed again". -/
theorem cleanup_no_flush_counterexample :
    ((trackEvent c2_config (cleanup (initialState c2_config)) 0 "s" "/"
        "after_cleanup" none).2 = true) ∧
    (flushStart (trackEvent c2_config (cleanup (initialState c2_config)) 0 "s" "/"
        "after_cleanup" none).1 0).sentBatch
      = some [mkFullEvent c2_partial 0 "s" "/"] := by
  constructor <;> rfl

/-- C2 (amended): after `cleanup()`, track-* calls still append their
event to the queue, and flushing is not disabled: a call that brings the
queue to `batchSize` schedules a flush, and that flush, outside any
backoff window, performs a delivery attempt of the whole queue as usual —
`cleanup` only cancels the then-pending timer, removes the page-lifecycle
listeners and resets the session cache. -/
theorem cleanup_track_and_flush (config : ObservabilityConfig)
    (s : EngineState) (now t1 : Nat) (sessionId page : String)
    (p : PartialEvent)
    (hb : config.batchSize ≤ (cleanup s).eventQueue.length + 1)
    (ht : (collect config (cleanup s) now sessionId page p).1.backoffUntil
      ≤ t1) :
    (collect config (cleanup s) now sessionId page p).1.eventQueue
      = (cleanup s).eventQueue ++ [mkFullEvent p now sessionId page] ∧
    (collect config (cleanup s) now sessionId page p).2 = true ∧
    (flushStart (collect config (cleanup s) now sessionId page p).1 t1).sentBatch
      = some ((cleanup s).eventQueue ++ [mkFullEvent p now sessionId page]) := by
  have hq := collect_queue config (cleanup s) now sessionId page p
  have hlen : (collect config (cleanup s) now sessionId page p).1.eventQueue.length
      = (cleanup s).eventQueue.length + 1 := by
    rw [hq]; simp
  have hsched : (collect config (cleanup s) now sessionId page p).2 = true := by
    simp only [collect, scheduleFlush]
    rw [if_pos (by simpa using hb)]
    rw [if_neg (by simp)]
  have hne : ¬ (collect config (cleanup s) now sessionId page p).1.eventQueue.length
      = 0 := by
    rw [hlen]; omega
  have hnb : ¬ t1 < (collect config (cleanup s) now sessionId page p).1.backoffUntil := by
    omega
  refine ⟨hq, hsched, ?_⟩
  rw [flushStart, if_neg hne, if_neg hnb]
  rw [FlushStart.sentBatch, hq]

/-- C2 (witness): the amended claim evaluated on a disposed instance with
`batchSize = 1` at time 0. -/
theorem cleanup_track_and_flush_witness :
    (collect c2_config (cleanup (initialState c2_config)) 0 "s" "/"
        c2_partial).1.eventQueue
      = (cleanup (initialState c2_config)).eventQueue
          ++ [mkFullEvent c2_partial 0 "s" "/"] ∧
    (collect c2_config (cleanup (initialState c2_config)) 0 "s" "/"
        c2_partial).2 = true ∧
    (flushStart (collect c2_config (cleanup (initialState c2_config)) 0 "s" "/"
        c2_partial).1 0).sentBatch
      = some ((cleanup (initialState c2_config)).eventQueue
          ++ [mkFullEvent c2_partial 0 "s" "/"]) :=
  cleanup_track_and_flush c2_config (initialState c2_config) 0 0 "s" "/"
    c2_partial (by decide) (by decide)

/-- C3: the backoff delay armed after the n-th consecutive failure
(1-indexed, so the pre-failure count is `n - 1`) equals
`min (5000 * 2 ^ (n - 1)) 300000` milliseconds, both as the value of
`getBackoffDelay` and as the window armed by the failure branch of
`flush`. -/
theorem backoff_delay_formula (n : Nat) (_hn : 1 ≤ n) (s : EngineState)
    (b : List TelemetryEvent) (t2 : Nat)
    (hs : s.consecutiveFailures + 1 = n) :
    getBackoffDelay n = min (5000 * 2 ^ (n - 1)) 300000 ∧
    (flushResolve s b false t2).1.backoffUntil
      = t2 + min (5000 * 2 ^ (n - 1)) 300000 := by
  constructor
  · rfl
  · rw [flushResolve_fail_backoffUntil, hs]; rfl

/-- C3 (witness): the formula evaluated at the third consecutive failure
(delay 20 s). -/
theorem backoff_delay_formula_witness :
    getBackoffDelay 3 = min (5000 * 2 ^ (3 - 1)) 300000 ∧
    (flushResolve c3_state [] false 1000).1.backoffUntil
      = 1000 + min (5000 * 2 ^ (3 - 1)) 300000 :=
  backoff_delay_formula 3 (by decide) c3_state [] 1000 (by decide)

/-- C4 (counterexample): the claim that caller-supplied fields take
precedence on every key except `message` and `stack` is false — the code
also injects the raw thrown value under the key `error`, overriding a
caller-supplied `error` field; and with a non-structured thrown value the
`stack` key is still present (bound to `undefined`). -/
theorem trackError_caller_precedence_counterexample :
    getProp (trackErrorProps (Value.vStr "boom")
        [("error", Value.vStr "mine")]) "error"
      = some (Value.vStr "boom") ∧
    Value.vStr "boom" ≠ Value.vStr "mine" ∧
    getProp (trackErrorProps (Value.vStr "boom") []) "stack"
      = some Value.vUndefined := by
  refine ⟨by decide, by decide, by decide⟩

/-- C4 (amended): `trackError` records an event of type `error` whose
properties are the caller-supplied properties overridden on exactly three
normalized keys — `error` (the raw thrown value), `message` (the
normalized string form) and `stack` (the structured error's stack, the
undefined value otherwise, so the key is always present) — while
caller-supplied fields take precedence on every other key. -/
theorem trackError_props_normalized (e : Value) (ps : List (String × Value))
    (k : String) (config : ObservabilityConfig) (s : EngineState) (now : Nat)
    (sessionId page nm : String)
    (hk1 : k ≠ "error") (hk2 : k ≠ "message") (hk3 : k ≠ "stack") :
    getProp (trackErrorProps e ps) k = getProp ps k ∧
    getProp (trackErrorProps e ps) "error" = some e ∧
    getProp (trackErrorProps e ps) "message"
      = some (.vStr (errorMessage e)) ∧
    getProp (trackErrorProps e ps) "stack" = some (errorStack e) ∧
    (trackError config s now sessionId page nm e (some ps)).1.eventQueue
      = s.eventQueue ++ [mkFullEvent
          { type := .error, name := nm, value := none, rating := none,
            properties := some (trackErrorProps e ps) } now sessionId page] := by
  refine ⟨?_, ?_, ?_, ?_, ?_⟩
  · rw [trackErrorProps, getProp_append]
    have h : getProp [("error", e), ("message", .vStr (errorMessage e)),
        ("stack", errorStack e)] k = none := by
      simp [getProp, Ne.symm hk1, Ne.symm hk2, Ne.symm hk3]
    rw [h, Option.none_or]
  · rw [trackErrorProps, getProp_append]
    simp [getProp]
  · rw [trackErrorProps, getProp_append]
    simp [getProp]
  · rw [trackErrorProps, getProp_append]
    simp [getProp]
  · exact collect_queue config s now sessionId page _

/-- C4 (witness): the amended claim evaluated for a structured error with
message and stack and one caller property under the key `ctx`. -/
theorem trackError_props_normalized_witness :
    getProp (trackErrorProps (Value.vErr "msg" (some "st"))
        [("ctx", Value.vNum 7)]) "ctx"
      = getProp [("ctx", Value.vNum 7)] "ctx" ∧
    getProp (trackErrorProps (Value.vErr "msg" (some "st"))
        [("ctx", Value.vNum 7)]) "error"
      = some (Value.vErr "msg" (some "st")) ∧
    getProp (trackErrorProps (Value.vErr "msg" (some "st"))
        [("ctx", Value.vNum 7)]) "message"
      = some (.vStr (errorMessage (Value.vErr "msg" (some "st")))) ∧
    getProp (trackErrorProps (Value.vErr "msg" (some "st"))
        [("ctx", Value.vNum 7)]) "stack"
      = some (errorStack (Value.vErr "msg" (some "st"))) ∧
    (trackError DEFAULT_CONFIG (initialState DEFAULT_CONFIG) 3 "s" "/"
        "err_name" (Value.vErr "msg" (some "st"))
        (some [("ctx", Value.vNum 7)])).1.eventQueue
      = (initialState DEFAULT_CONFIG).eventQueue ++ [mkFullEvent
          { type := .error, name := "err_name", value := none, rating := none,
            properties := some (trackErrorProps (Value.vErr "msg" (some "st"))
              [("ctx", Value.vNum 7)]) } 3 "s" "/"] :=
  trackError_props_normalized (Value.vErr "msg" (some "st"))
    [("ctx", Value.vNum 7)] "ctx" DEFAULT_CONFIG (initialState DEFAULT_CONFIG)
    3 "s" "/" "err_name" (by decide) (by decide) (by decide)

/-- C5 (counterexample): a flush trigger at time 1000 inside a backoff
window ending at 5000 while an interval timer armed earlier (firing at
6000) is pending performs no send and leaves the state — including the
pending timer — entirely unchanged; no retry timer for the remaining
backoff duration (which would fire at 5000) is armed. -/
theorem backoff_window_timer_counterexample :
    flushStart c5_state 1000 = .noSend c5_state ∧
    c5_state.flushTimer ≠ some c5_state.backoffUntil := by
  constructor
  · rfl
  · decide

/-- C5 (amended): for every flush trigger inside a backoff window, no
network send is performed and the queue is left unchanged (the open
breaker discards nothing); a retry timer firing exactly when the backoff
window ends is armed only when no timer is already pending — an
already-pending timer is left as it is. -/
theorem backoff_window_defers (s : EngineState) (t1 : Nat)
    (hq : s.eventQueue ≠ []) (hb : t1 < s.backoffUntil) :
    flushStart s t1
      = .noSend (if s.flushTimer.isNone then
          { s with flushTimer := some s.backoffUntil } else s) ∧
    (flushStart s t1).sentBatch = none ∧
    (flushStart s t1).state.eventQueue = s.eventQueue := by
  have h0 : ¬ s.eventQueue.length = 0 := by simpa using hq
  have h1 : flushStart s t1
      = .noSend (if s.flushTimer.isNone then
          { s with flushTimer := some s.backoffUntil } else s) := by
    simp only [flushStart, if_neg h0, if_pos hb]
    split <;> rfl
  refine ⟨h1, ?_, ?_⟩
  · rw [h1]; rfl
  · rw [h1]; split <;> rfl

/-- C5 (witness): the amended claim evaluated at time 2000 on the state
of the counterexample. -/
theorem backoff_window_defers_witness :
    flushStart c5_state 2000
      = .noSend (if c5_state.flushTimer.isNone then
          { c5_state with flushTimer := some c5_state.backoffUntil }
        else c5_state) ∧
    (flushStart c5_state 2000).sentBatch = none ∧
    (flushStart c5_state 2000).state.eventQueue = c5_state.eventQueue :=
  backoff_window_defers c5_state 2000 (by decide) (by decide)

/-- C6: every successful delivery resets the breaker unconditionally —
failure count and `backoffUntil` become 0 — and the first failure after a
success arms a 5000 ms backoff (the sequence restarts at 5 s). -/
theorem success_resets_breaker (s : EngineState) (b : List TelemetryEvent)
    (t2 : Nat) (s2 : EngineState) (b2 : List TelemetryEvent) (t3 : Nat)
    (h : s2.consecutiveFailures = 0) :
    (flushResolve s b true t2).1.consecutiveFailures = 0 ∧
    (flushResolve s b true t2).1.backoffUntil = 0 ∧
    (flushResolve s2 b2 false t3).1.consecutiveFailures = 1 ∧
    (flushResolve s2 b2 false t3).1.backoffUntil = t3 + 5000 := by
  refine ⟨by rw [flushResolve_ok], by rw [flushResolve_ok], ?_, ?_⟩
  · rw [flushResolve_fail_failures, h]
  · rw [flushResolve_fail_backoffUntil, h]; rfl

/-- C6 (witness): the reset evaluated on a state with two prior failures
and the restart evaluated on a fresh state failing at time 9. -/
theorem success_resets_breaker_witness :
    (flushResolve c3_state [] true 0).1.consecutiveFailures = 0 ∧
    (flushResolve c3_state [] true 0).1.backoffUntil = 0 ∧
    (flushResolve (initialState DEFAULT_CONFIG) [] false 9).1.consecutiveFailures
      = 1 ∧
    (flushResolve (initialState DEFAULT_CONFIG) [] false 9).1.backoffUntil
      = 9 + 5000 :=
  success_resets_breaker c3_state [] 0 (initialState DEFAULT_CONFIG) [] 9
    (by decide)

/-- C7: over any sequence of failed deliveries, the emitted warnings are
at least 60 s of wall-clock time apart (so at most one per 60-second
window however many failures occur), and every emitted warning carries
the attempt number (the incremented failure count) and the computed retry
delay. -/
theorem warnings_rate_limited (s : EngineState) (ts : List Nat)
    (s2 : EngineState) (b : List TelemetryEvent) (t2 : Nat) (w : Warning)
    (hw : (flushResolve s2 b false t2).2 = some w) :
    List.Chain' (fun a b => a.1 + ERROR_LOG_INTERVAL_MS ≤ b.1)
      (runFlushFailures s ts) ∧
    w.attempt = s2.consecutiveFailures + 1 ∧
    w.delayMs = getBackoffDelay (s2.consecutiveFailures + 1) := by
  refine ⟨(runFlushFailures_chain ts s).1, ?_, ?_⟩ <;>
  · rw [flushResolve_fail_warning] at hw
    split_ifs at hw
    simp only [Option.some.injEq] at hw
    subst hw
    rfl

/-- C7 (witness): three failures at 70 s, 80 s and 140 s — the emitted
warnings respect the 60 s spacing, and the first failure's warning
carries attempt 1 and delay 5000 ms. -/
theorem warnings_rate_limited_witness :
    List.Chain' (fun a b => a.1 + ERROR_LOG_INTERVAL_MS ≤ b.1)
      (runFlushFailures (initialState DEFAULT_CONFIG)
        [70000, 80000, 140000]) ∧
    (Warning.mk 1 5000).attempt
      = (initialState DEFAULT_CONFIG).consecutiveFailures + 1 ∧
    (Warning.mk 1 5000).delayMs
      = getBackoffDelay ((initialState DEFAULT_CONFIG).consecutiveFailures + 1) :=
  warnings_rate_limited (initialState DEFAULT_CONFIG) [70000, 80000, 140000]
    (initialState DEFAULT_CONFIG) [] 70000 (Warning.mk 1 5000) (by decide)

/-- C8: with `useBeacon` enabled and a non-empty queue, the teardown
flush hands the whole current batch to the one-way beacon exactly once
and empties the queue while leaving timers and breaker untouched — it
observes no outcome, so there is no requeue and no retry; with beacon
disabled or an empty queue nothing is sent and the state is unchanged. -/
theorem beacon_flush_semantics (config : ObservabilityConfig)
    (s : EngineState) :
    (config.useBeacon = true → s.eventQueue ≠ [] →
      flushWithBeacon config s
        = ({ s with eventQueue := [] }, some s.eventQueue)) ∧
    (config.useBeacon = false ∨ s.eventQueue = [] →
      flushWithBeacon config s = (s, none)) := by
  constructor
  · intro hb hq
    have h : ¬ (s.eventQueue.length = 0 ∨ config.useBeacon = false) := by
      push_neg
      exact ⟨by simpa using hq, by simp [hb]⟩
    rw [flushWithBeacon, if_neg h]
  · intro h
    have h2 : s.eventQueue.length = 0 ∨ config.useBeacon = false := by
      rcases h with h | h
      · right; exact h
      · left; simp [h]
    rw [flushWithBeacon, if_pos h2]

/-- C8 (witness): the teardown flush evaluated on a mid-flight state with
one queued event (sent, queue emptied, breaker untouched) and on an
empty-queue state (nothing sent). -/
theorem beacon_flush_semantics_witness :
    flushWithBeacon DEFAULT_CONFIG c8_state
      = ({ c8_state with eventQueue := [] }, some c8_state.eventQueue) ∧
    flushWithBeacon DEFAULT_CONFIG (initialState DEFAULT_CONFIG)
      = (initialState DEFAULT_CONFIG, none) :=
  ⟨(beacon_flush_semantics DEFAULT_CONFIG c8_state).1 (by decide) (by decide),
   (beacon_flush_semantics DEFAULT_CONFIG (initialState DEFAULT_CONFIG)).2
     (Or.inr (by decide))⟩

/-- C9: every event enters the queue fully populated — `collect` (the
single path all track-* operations go through) appends exactly one event
stamped with the current time, session id and page, carrying the caller's
type and name — and no operation ever alters a queued event: each
operation's resulting queue is built from the incoming events unchanged
(flush detaches a prefix-swap, failure re-appends a truncation of the
detached batch, the beacon path detaches everything, cleanup and
scheduling leave the queue as it is). -/
theorem events_stamped_and_immutable (config : ObservabilityConfig)
    (s : EngineState) (now t1 t2 : Nat) (sessionId page : String)
    (p : PartialEvent) (batch : List TelemetryEvent) (ok : Bool) :
    (collect config s now sessionId page p).1.eventQueue
      = s.eventQueue ++ [mkFullEvent p now sessionId page] ∧
    (mkFullEvent p now sessionId page).timestamp = now ∧
    (mkFullEvent p now sessionId page).sessionId = sessionId ∧
    (mkFullEvent p now sessionId page).page = page ∧
    (mkFullEvent p now sessionId page).type = p.type ∧
    (mkFullEvent p now sessionId page).name = p.name ∧
    (flushStart s t1).state.eventQueue ++ ((flushStart s t1).sentBatch.getD [])
      = s.eventQueue ∧
    (flushResolve s batch ok t2).1.eventQueue
      = (if ok then s.eventQueue
         else s.eventQueue ++ batch.take (100 - s.eventQueue.length)) ∧
    (flushWithBeacon config s).1.eventQueue
        ++ ((flushWithBeacon config s).2.getD []) = s.eventQueue ∧
    (cleanup s).eventQueue = s.eventQueue ∧
    (scheduleFlush s).1.eventQueue = s.eventQueue := by
  refine ⟨collect_queue config s now sessionId page p, rfl, rfl, rfl, rfl, rfl,
    ?_, ?_, ?_, rfl, ?_⟩
  · simp only [flushStart]
    split_ifs <;> simp [FlushStart.state, FlushStart.sentBatch]
  · cases ok
    · simpa using flushResolve_fail_queue s batch t2
    · simp [flushResolve_ok]
  · simp only [flushWithBeacon]
    split_ifs <;> simp
  · simp only [scheduleFlush]
    split_ifs <;> rfl

/-- C10: `trackPageView` records a `page_view` event of type `event`
whose properties are `path` followed by the caller's property spread, so
the recorded value under the key `path` is the caller-supplied one when
the caller's bag binds `path` and the `path` argument otherwise. -/
theorem pageview_path_override (config : ObservabilityConfig)
    (s : EngineState) (now : Nat) (sessionId page path : String)
    (props : Option (List (String × Value))) (ps : List (String × Value)) :
    (trackPageView config s now sessionId page path props).1.eventQueue
      = s.eventQueue ++ [mkFullEvent
          { type := .event, name := "page_view", value := none, rating := none,
            properties := some (("path", .vStr path) :: props.getD []) }
          now sessionId page] ∧
    getProp (("path", Value.vStr path) :: ps) "path"
      = some ((getProp ps "path").getD (Value.vStr path)) := by
  constructor
  · exact collect_queue config s now sessionId page _
  · cases h : getProp ps "path" <;> simp [getProp, h]

end Telemetry
